import Mathlib

/-!
Verification development for the DnB Seq drum sequencer plugin
(`dnb_seq.cpp`): a shallow embedding of its data model (DrumPattern,
the DTC state block), pattern catalog (`generatePattern`,
`getTrackFromPattern`), variation engine (`generateVariation`,
`generateVariationWithSeed`, `resetToDefault`), and per-sample
clock/reset/trigger state machine (`step`), together with theorems
about the backbeat invariant, pattern-change queueing, clock division,
reset semantics, probability gating and seeded determinism.

Conventions of the embedding:
* C `bool track[MAX_STEPS]` arrays become `List Bool` of length 32;
  `memset`+`memcpy` initialisation becomes `mkTrack` (copy the literal
  prefix, zero-fill the rest).  Reads `a[i]` become `List.getD i false`,
  writes become `List.set`.
* The C library random source is kept abstract.  Control-path code that
  calls `rand()` without reseeding is given the stream of successive
  outputs as a function `r : Nat → Nat` (draw index ↦ value).  The
  render path and the seeded variation thread the hidden generator
  state explicitly: `f : Nat → Nat × Nat` maps a generator state to
  (output value, next state), and `sInit : Int → Nat` models `srand`.
* `float` probabilities and CV sample values are modelled as `ℚ`; the
  only float operations involved are comparisons and the single
  division `rand() / RAND_MAX`, whose sign behaviour (the only thing
  the theorems rely on) is exact.  `RAND_MAX = 2147483647` (newlib).
-/

/-- `MAX_STEPS` from the source: the longest pattern has 32 steps. -/
def MAX_STEPS : Nat := 32

/-- A C pattern-track literal: `memset` the 32-slot array to zero, then
`memcpy` the braced initialiser (written with 1/0 as in the source). -/
def mkTrack (l : List Nat) : List Bool :=
  (l.map (fun n => n != 0)) ++ List.replicate (MAX_STEPS - l.length) false

/-- `struct DrumPattern`: four 32-slot boolean tracks plus the number of
steps actually used. -/
structure DrumPattern where
  kick : List Bool
  snare : List Bool
  hihat : List Bool
  ghostSnare : List Bool
  steps : Nat
deriving DecidableEq

/-- The all-zero pattern produced by `memset(&p, 0, sizeof(p))` with the
default `p.steps = 16`, as left by the `default:` branch of
`generatePattern` for an unknown id. -/
def emptyPattern : DrumPattern :=
  { kick := mkTrack [], snare := mkTrack [], hihat := mkTrack [],
    ghostSnare := mkTrack [], steps := 16 }

/-- Catalog entry 0 (Two-Step) of `generatePattern`. -/
def pattern0 : DrumPattern :=
  { kick  := mkTrack [1, 0, 0, 0, 0, 0, 0, 0, 0, 0, 1, 0, 0, 0, 0, 0],
    snare := mkTrack [0, 0, 0, 0, 1, 0, 0, 0, 0, 0, 0, 0, 1, 0, 0, 0],
    hihat := mkTrack [1, 0, 1, 0, 1, 0, 1, 0, 1, 0, 1, 0, 1, 0, 1, 0],
    ghostSnare := mkTrack [], steps := 16 }

/-- Catalog entry 1 (Delayed Two-Step) of `generatePattern`. -/
def pattern1 : DrumPattern :=
  { kick  := mkTrack [1, 0, 0, 0, 0, 0, 0, 0, 0, 0, 1, 0, 0, 0, 0, 0],
    snare := mkTrack [0, 0, 0, 0, 1, 0, 0, 0, 0, 0, 0, 0, 0, 0, 1, 0],
    hihat := mkTrack [1, 0, 1, 0, 1, 0, 1, 0, 1, 0, 1, 0, 1, 0, 1, 0],
    ghostSnare := mkTrack [], steps := 16 }

/-- Catalog entry 2 (Steppa) of `generatePattern`. -/
def pattern2 : DrumPattern :=
  { kick  := mkTrack [1, 0, 0, 0, 0, 0, 0, 0, 0, 0, 0, 0, 0, 0, 0, 0],
    snare := mkTrack [0, 0, 0, 0, 1, 0, 0, 0, 0, 0, 1, 0, 0, 0, 0, 0],
    hihat := mkTrack [1, 0, 1, 0, 1, 0, 1, 0, 1, 0, 1, 0, 1, 0, 1, 0],
    ghostSnare := mkTrack [0, 0, 0, 0, 0, 0, 0, 1, 0, 1, 0, 0, 0, 1, 0, 1],
    steps := 16 }

/-- Catalog entry 3 (Stompa) of `generatePattern`. -/
def pattern3 : DrumPattern :=
  { kick  := mkTrack [1, 0, 0, 0, 0, 0, 0, 0, 1, 0, 0, 0, 0, 0, 0, 0],
    snare := mkTrack [0, 0, 0, 0, 1, 0, 0, 0, 0, 0, 1, 0, 0, 0, 0, 0],
    hihat := mkTrack [1, 0, 1, 0, 1, 0, 1, 0, 1, 0, 1, 0, 1, 0, 1, 0],
    ghostSnare := mkTrack [0, 0, 0, 0, 0, 0, 0, 0, 0, 0, 0, 0, 0, 1, 0, 1],
    steps := 16 }

/-- Catalog entry 4 (Dance Hall) of `generatePattern`. -/
def pattern4 : DrumPattern :=
  { kick  := mkTrack [1, 0, 0, 0, 0, 0, 1, 0, 0, 0, 0, 0, 0, 0, 0, 0],
    snare := mkTrack [0, 0, 0, 0, 0, 0, 0, 0, 0, 0, 0, 0, 1, 0, 0, 0],
    hihat := mkTrack [1, 0, 1, 0, 1, 0, 1, 0, 1, 0, 1, 0, 1, 0, 1, 0],
    ghostSnare := mkTrack [], steps := 16 }

/-- Catalog entry 5 (Dimension UK, double length) of `generatePattern`. -/
def pattern5 : DrumPattern :=
  { kick  := mkTrack [1, 0, 0, 0, 0, 0, 0, 0, 0, 0, 0, 0, 0, 0, 0, 0,
                      0, 0, 0, 0, 0, 0, 0, 0, 0, 0, 0, 0, 0, 0, 1, 0],
    snare := mkTrack [0, 0, 0, 0, 1, 0, 0, 0, 1, 0, 0, 0, 1, 0, 0, 0,
                      1, 0, 0, 0, 1, 0, 0, 0, 1, 0, 0, 0, 0, 0, 0, 0],
    hihat := mkTrack [1, 0, 1, 0, 1, 0, 1, 0, 1, 0, 1, 0, 1, 0, 1, 0,
                      1, 0, 1, 0, 1, 0, 1, 0, 1, 0, 1, 0, 1, 0, 1, 0],
    ghostSnare := mkTrack [], steps := 32 }

/-- Catalog entry 6 (Halftime) of `generatePattern`. -/
def pattern6 : DrumPattern :=
  { kick  := mkTrack [1, 0, 0, 0, 0, 0, 0, 0, 0, 0, 0, 0, 0, 0, 0, 0],
    snare := mkTrack [0, 0, 0, 0, 0, 0, 0, 0, 1, 0, 0, 0, 0, 0, 0, 0],
    hihat := mkTrack [1, 0, 1, 0, 1, 0, 1, 0, 1, 0, 1, 0, 1, 0, 1, 0],
    ghostSnare := mkTrack [], steps := 16 }

/-- Catalog entry 7 (Triplet Two-Step) of `generatePattern`. -/
def pattern7 : DrumPattern :=
  { kick  := mkTrack [1, 0, 0, 0, 0, 0, 1, 0, 0, 0, 0, 0,
                      1, 0, 0, 0, 0, 0, 1, 0, 0, 0, 0, 0],
    snare := mkTrack [0, 0, 0, 0, 0, 0, 1, 0, 0, 0, 0, 0,
                      0, 0, 0, 0, 0, 0, 1, 0, 0, 0, 0, 0],
    hihat := mkTrack [1, 0, 1, 0, 1, 0, 1, 0, 1, 0, 1, 0,
                      1, 0, 1, 0, 1, 0, 1, 0, 1, 0, 1, 0],
    ghostSnare := mkTrack [], steps := 24 }

/-- Catalog entry 8 (Amen Break) of `generatePattern`. -/
def pattern8 : DrumPattern :=
  { kick  := mkTrack [1, 0, 0, 0, 0, 0, 0, 0, 0, 0, 1, 0, 0, 0, 0, 0],
    snare := mkTrack [0, 0, 0, 0, 1, 0, 0, 1, 0, 1, 0, 0, 1, 0, 0, 0],
    hihat := mkTrack [1, 0, 1, 0, 1, 0, 1, 0, 1, 0, 1, 0, 1, 0, 1, 0],
    ghostSnare := mkTrack [0, 0, 0, 0, 0, 0, 1, 0, 0, 0, 0, 0, 0, 0, 0, 0],
    steps := 16 }

/-- Catalog entry 9 (Neurofunk) of `generatePattern`. -/
def pattern9 : DrumPattern :=
  { kick  := mkTrack [1, 0, 0, 0, 0, 1, 0, 0, 1, 0, 0, 0, 0, 1, 0, 0],
    snare := mkTrack [0, 0, 0, 0, 1, 0, 0, 0, 0, 0, 0, 0, 1, 0, 0, 0],
    hihat := mkTrack [1, 0, 1, 1, 1, 0, 1, 0, 1, 0, 1, 1, 1, 0, 1, 0],
    ghostSnare := mkTrack [0, 0, 0, 1, 0, 0, 0, 0, 0, 0, 0, 1, 0, 0, 0, 0],
    steps := 16 }

/-- `_DnbSeqAlgorithm::generatePattern`: the catalog switch on the
pattern id.  Every `case` fills the cleared pattern with its track
literals (split out above as `pattern0` .. `pattern9`); ids outside 0..9
fall through to `default: break;` leaving the cleared 16-step pattern. -/
def generatePattern (patternId : Int) : DrumPattern :=
  if patternId = 0 then pattern0
  else if patternId = 1 then pattern1
  else if patternId = 2 then pattern2
  else if patternId = 3 then pattern3
  else if patternId = 4 then pattern4
  else if patternId = 5 then pattern5
  else if patternId = 6 then pattern6
  else if patternId = 7 then pattern7
  else if patternId = 8 then pattern8
  else if patternId = 9 then pattern9
  else emptyPattern

/-- The inner `switch (track)` of `getTrackFromPattern`: `case 0` copies
the kick literal, `case 1` the snare literal, `case 3` the ghost
literal; any other track leaves the cleared (all-zero) output array. -/
def pickTrack (track : Nat) (k s g : List Nat) : List Bool :=
  if track = 0 then mkTrack k
  else if track = 1 then mkTrack s
  else if track = 3 then mkTrack g
  else mkTrack []

/-- `getTrackFromPattern(patternId, track, outTrack, outSteps)`: returns
the pair `(outTrack, outSteps)`.  Note its pattern literals differ from
`generatePattern`'s, it has no entries for patterns 5 and 7, and every
branch (including `default`) reports `outSteps = 16`. -/
def getTrackFromPattern (patternId : Nat) (track : Nat) : List Bool × Nat :=
  if patternId = 0 then -- Two-Step
    (pickTrack track
      [1, 0, 0, 0, 0, 0, 0, 0, 0, 0, 1, 0, 0, 0, 0, 0]
      [0, 0, 0, 0, 1, 0, 0, 0, 0, 0, 0, 0, 1, 0, 0, 0]
      [0, 0, 0, 0, 0, 0, 1, 0, 0, 0, 0, 0, 0, 0, 0, 0], 16)
  else if patternId = 1 then -- Delayed Two-Step
    (pickTrack track
      [1, 0, 0, 0, 0, 0, 0, 0, 0, 0, 1, 0, 0, 0, 0, 0]
      [0, 0, 0, 0, 1, 0, 0, 0, 0, 0, 0, 0, 0, 1, 0, 0]
      [0, 0, 0, 0, 0, 0, 1, 0, 0, 0, 0, 0, 0, 0, 0, 0], 16)
  else if patternId = 2 then -- Steppa
    (pickTrack track
      [1, 0, 0, 0, 0, 0, 1, 0, 0, 0, 1, 0, 0, 0, 0, 0]
      [0, 0, 0, 0, 1, 0, 0, 0, 0, 0, 0, 0, 1, 0, 0, 0]
      [0, 0, 1, 0, 0, 0, 0, 0, 0, 0, 0, 0, 0, 0, 1, 0], 16)
  else if patternId = 3 then -- Stompa
    (pickTrack track
      [1, 0, 0, 0, 1, 0, 0, 0, 0, 0, 1, 0, 0, 0, 0, 0]
      [0, 0, 0, 0, 1, 0, 0, 0, 0, 0, 0, 0, 1, 0, 0, 0]
      [0, 0, 0, 0, 0, 0, 1, 0, 0, 0, 0, 0, 0, 0, 0, 0], 16)
  else if patternId = 4 then -- Dance Hall
    (pickTrack track
      [1, 0, 0, 1, 0, 0, 0, 0, 1, 0, 0, 1, 0, 0, 0, 0]
      [0, 0, 0, 0, 1, 0, 0, 0, 0, 0, 0, 0, 1, 0, 0, 0]
      [0, 0, 1, 0, 0, 0, 1, 0, 0, 0, 1, 0, 0, 0, 1, 0], 16)
  else if patternId = 6 then -- Halftime
    (pickTrack track
      [1, 0, 0, 0, 0, 0, 0, 0, 0, 0, 0, 0, 0, 0, 0, 0]
      [0, 0, 0, 0, 0, 0, 0, 0, 1, 0, 0, 0, 0, 0, 0, 0]
      [0, 0, 0, 0, 0, 0, 1, 0, 0, 0, 0, 0, 0, 0, 0, 0], 16)
  else if patternId = 8 then -- Amen Break
    (pickTrack track
      [1, 0, 0, 0, 0, 0, 1, 0, 0, 1, 0, 0, 0, 0, 0, 0]
      [0, 0, 0, 0, 1, 0, 0, 0, 0, 0, 1, 0, 1, 0, 0, 0]
      [0, 0, 0, 0, 0, 0, 0, 0, 0, 0, 0, 0, 0, 0, 0, 0], 16)
  else if patternId = 9 then -- Neurofunk
    (pickTrack track
      [1, 0, 0, 0, 0, 1, 0, 0, 1, 0, 0, 0, 0, 1, 0, 0]
      [0, 0, 0, 0, 1, 0, 0, 0, 0, 0, 0, 0, 1, 0, 0, 0]
      [0, 0, 0, 1, 0, 0, 0, 0, 0, 0, 0, 1, 0, 0, 0, 0], 16)
  else -- patterns 5, 7 and the default branch: cleared track
    (mkTrack [], 16)

-- --- Variation engine (part: generateVariation and its helpers) ---

/-- The protected backbeat test used throughout the source:
`position == 4 || position == 12 || position == 20 || position == 28`. -/
def isMainSnarePos (p : Nat) : Bool :=
  p == 4 || p == 12 || p == 20 || p == 28

/-- The track-draw idiom `int track = rand() % 3; if (track >= 2) track = 3;`
mapping a raw draw to track index 0 (kick), 1 (snare) or 3 (ghost). -/
def mapTrack (t : Nat) : Nat :=
  if t % 3 ≥ 2 then 3 else t % 3

/-- Read a kick/snare/ghost track of a pattern by its index, mirroring
the repeated `switch (track)` read dispatch of the source. -/
def trackList (v : DrumPattern) (t : Nat) : List Bool :=
  if t = 0 then v.kick
  else if t = 1 then v.snare
  else if t = 3 then v.ghostSnare
  else []

/-- Write back a kick/snare/ghost track of a pattern by its index,
mirroring the repeated `switch (track)` write dispatch of the source. -/
def setTrack (v : DrumPattern) (t : Nat) (l : List Bool) : DrumPattern :=
  if t = 0 then { v with kick := l }
  else if t = 1 then { v with snare := l }
  else if t = 3 then { v with ghostSnare := l }
  else v

/-- Toggle one slot: `arr[position] = !arr[position]`. -/
def toggleAt (l : List Bool) (i : Nat) : List Bool :=
  l.set i (!(l.getD i false))

/-- `memcpy(dst, src, n * sizeof(bool))`: overwrite the first `n` slots
of `dst` with those of `src`. -/
def listCopyN (src dst : List Bool) (n : Nat) : List Bool :=
  src.take n ++ dst.drop n

/-- The snare branch of the cross-pattern copy: overwrite every
non-backbeat position `i < steps` with the source value, keeping
backbeat positions. -/
def copySnareNB (snare temp : List Bool) (steps : Nat) : List Bool :=
  (List.range steps).foldl
    (fun acc i => if isMainSnarePos i then acc else acc.set i (temp.getD i false))
    snare

/-- `generateVariation` branch `variationType == 0` (cross-pattern track
copy): pick a non-hihat track and a source pattern id; copy only when the
source step count reported by `getTrackFromPattern` equals the
variation's step count, preserving snare backbeat positions. -/
def copyStrategy (base : DrumPattern) (t1Draw t2Draw : Nat) : DrumPattern :=
  let sourceTrack := mapTrack t1Draw
  let sourcePattern := t2Draw % 10
  let tk := getTrackFromPattern sourcePattern sourceTrack
  if tk.2 = base.steps then
    if sourceTrack = 1 then
      { base with snare := copySnareNB base.snare tk.1 base.steps }
    else if sourceTrack = 0 then
      { base with kick := listCopyN tk.1 base.kick tk.2 }
    else if sourceTrack = 3 then
      { base with ghostSnare := listCopyN tk.1 base.ghostSnare tk.2 }
    else base
  else base

/-- The inner loop of the slide branch: the target track was copied to
`temp` and cleared (first `steps` slots zeroed); each hit at `i` moves to
`(i + direction + steps) % steps` unless (for the snare track) the
destination is a protected backbeat slot, in which case it stays at `i`. -/
def slideTrack (trk : List Bool) (steps : Nat) (direction : Int) (isSnare : Bool) :
    List Bool :=
  let temp := trk
  let cleared := List.replicate steps false ++ trk.drop steps
  (List.range steps).foldl
    (fun acc i =>
      if temp.getD i false then
        let newPos := ((i : Int) + direction + (steps : Int)).emod (steps : Int) |>.toNat
        if isMainSnarePos newPos && isSnare then acc.set i true
        else acc.set newPos true
      else acc)
    cleared

/-- `generateVariation` branch `variationType == 1` (slide hits one step
forward or backward with wraparound). -/
def slideStrategy (base : DrumPattern) (tDraw dDraw : Nat) : DrumPattern :=
  let track := mapTrack tDraw
  let direction : Int := if dDraw % 2 != 0 then 1 else -1
  if track = 0 then
    { base with kick := slideTrack base.kick base.steps direction false }
  else if track = 1 then
    { base with snare := slideTrack base.snare base.steps direction true }
  else if track = 3 then
    { base with ghostSnare := slideTrack base.ghostSnare base.steps direction false }
  else base

/-- The bounded search loop of the remove branch: up to `fuel` attempts
(started at `steps`), draw a position; skip protected snare backbeat
positions; stop at the first position holding a hit.  Returns the found
position, if any.  `r k` is the k-th position draw. -/
def removeLoop (r : Nat → Nat) (steps : Nat) (isSnare : Bool) (trk : List Bool) :
    Nat → Nat → Option Nat
  | 0, _ => none
  | fuel + 1, k =>
    let position := r k % steps
    let isMain := isMainSnarePos position && isSnare
    let found := if isMain then false else trk.getD position false
    if found then some position else removeLoop r steps isSnare trk fuel (k + 1)

/-- `generateVariation` branch `variationType == 2` (remove a single
non-backbeat hit, searching at most `steps` random positions). -/
def removeStrategy (base : DrumPattern) (tDraw : Nat) (r : Nat → Nat) : DrumPattern :=
  let track := mapTrack tDraw
  let trk := trackList base track
  match removeLoop r base.steps (track == 1) trk base.steps 0 with
  | some position => setTrack base track (trk.set position false)
  | none => base

/-- `generateVariation` branch `variationType == 3` (swap the boolean
values of two distinct non-hihat tracks at one position, unless either
track is the snare at a protected backbeat position). -/
def swapStrategy (base : DrumPattern) (t1Draw t2Draw pDraw : Nat) : DrumPattern :=
  let track1 := mapTrack t1Draw
  let track2 := mapTrack t2Draw
  if track1 ≠ track2 then
    let position := pDraw % base.steps
    if isMainSnarePos position && (track1 == 1 || track2 == 1) then base
    else
      let hit1 := (trackList base track1).getD position false
      let hit2 := (trackList base track2).getD position false
      let v1 := setTrack base track1 ((trackList base track1).set position hit2)
      setTrack v1 track2 ((trackList v1 track2).set position hit1)
  else base

/-- `_DnbSeqAlgorithm::generateVariation` (the four-strategy version):
starts from the clean base pattern, draws the variation type, then runs
the chosen strategy.  `r i` is the i-th output of the global `rand()`
stream at the time of the call. -/
def generateVariation (r : Nat → Nat) (base : DrumPattern) : DrumPattern :=
  match r 0 % 4 with
  | 0 => copyStrategy base (r 1) (r 2)
  | 1 => slideStrategy base (r 1) (r 2)
  | 2 => removeStrategy base (r 1) (fun i => r (2 + i))
  | _ => swapStrategy base (r 1) (r 2) (r 3)

-- --- Seeded variation (generateVariationWithSeed) ---

/-- `RAND_MAX` of the target toolchain (newlib): `2^31 - 1`. -/
def RAND_MAX : Nat := 2147483647

/-- The probability gate `(rand() / (float) RAND_MAX) < probability`,
with the draw value `rv` and the probability as exact rationals. -/
def gate (rv : Nat) (p : ℚ) : Bool :=
  decide ((rv : ℚ) / (RAND_MAX : ℚ) < p)

/-- One iteration of `generateVariationWithSeed`'s mutation loop,
threading the hidden generator state (second component): draw a track
from {kick, snare, ghost}, draw a position, skip protected snare
backbeat positions, and otherwise toggle the slot when the track's
probability gate passes.  `f` maps generator state to (draw, new state). -/
def gvwsIter (f : Nat → Nat × Nat) (bd sn gh : ℚ) (vs : DrumPattern × Nat) :
    DrumPattern × Nat :=
  let v := vs.1
  let d1 := f vs.2
  let track := mapTrack d1.1
  let d2 := f d1.2
  let position := d2.1 % v.steps
  if isMainSnarePos position && track == 1 then (v, d2.2)
  else if track = 0 then
    let d3 := f d2.2
    (if gate d3.1 bd then { v with kick := toggleAt v.kick position } else v, d3.2)
  else if track = 1 then
    let d3 := f d2.2
    (if gate d3.1 sn then { v with snare := toggleAt v.snare position } else v, d3.2)
  else if track = 3 then
    let d3 := f d2.2
    (if gate d3.1 gh then { v with ghostSnare := toggleAt v.ghostSnare position } else v,
     d3.2)
  else (v, d2.2)

/-- `_DnbSeqAlgorithm::generateVariationWithSeed(seed)`: starts from the
clean base pattern, reseeds the global generator (`srand(seed)`,
modelled by `sInit`; the incoming generator state `gIn` is discarded),
then applies the mutation loop twice.  Returns the new current pattern
and the generator state left behind. -/
def generateVariationWithSeed (f : Nat → Nat × Nat) (sInit : Int → Nat) (seed : Int)
    (base : DrumPattern) (bd sn gh : ℚ) (gIn : Nat) : DrumPattern × Nat :=
  let _ := gIn
  gvwsIter f bd sn gh (gvwsIter f bd sn gh (base, sInit seed))

-- --- Sequencer state machine (struct _DnbSeqAlgorithm_DTC and step()) ---

/-- `struct _DnbSeqAlgorithm_DTC`: the persistent algorithm state, plus
the hidden global generator state `rng` threaded by the render path. -/
structure SeqState where
  currentPattern : DrumPattern
  basePattern : DrumPattern
  currentStep : Nat
  pulsesPerStep : Nat
  pulseCount : Nat
  clockHigh : Bool
  resetHigh : Bool
  queuedPatternId : Int
  patternChangeQueued : Bool
  kickTriggerSamples : Nat
  snareTriggerSamples : Nat
  hihatTriggerSamples : Nat
  ghostTriggerSamples : Nat
  currentSeed : Int
  bdProbability : ℚ
  snareProbability : ℚ
  ghostProbability : ℚ
  rng : Nat
deriving DecidableEq

/-- The reset branch of the per-sample loop: when the reset input is
connected, run the rising-edge detector on its sample (updating the
stored `resetHigh` level) and, on a rising edge, jump to
`(currentStep, pulseCount) = (0, 0)`. -/
def applyReset (resetConnected : Bool) (rIn : ℚ) (st : SeqState) : SeqState :=
  if resetConnected then
    let high := decide (1 < rIn)
    let rising := high && !st.resetHigh
    let st1 := { st with resetHigh := high }
    if rising then { st1 with currentStep := 0, pulseCount := 0 } else st1
  else st

/-- The `pulseCount == 1` body: zero all four trigger counters, then arm
each track whose pattern slot at `currentStep` is active — kick, snare
and ghost each gated by one probability draw, hi-hat unconditionally.
Each per-track step yields (new counter value, generator state); the
draws happen in source order (kick, snare, ghost) and only when the
track's slot is active. -/
def armTriggers (f : Nat → Nat × Nat) (gateLengthSamples : Nat) (st : SeqState) :
    SeqState :=
  let kickArm :=
    if st.currentPattern.kick.getD st.currentStep false then
      let d := f st.rng
      (if gate d.1 st.bdProbability then gateLengthSamples else 0, d.2)
    else (0, st.rng)
  let snareArm :=
    if st.currentPattern.snare.getD st.currentStep false then
      let d := f kickArm.2
      (if gate d.1 st.snareProbability then gateLengthSamples else 0, d.2)
    else (0, kickArm.2)
  let hihatArm :=
    if st.currentPattern.hihat.getD st.currentStep false then gateLengthSamples else 0
  let ghostArm :=
    if st.currentPattern.ghostSnare.getD st.currentStep false then
      let d := f snareArm.2
      (if gate d.1 st.ghostProbability then gateLengthSamples else 0, d.2)
    else (0, snareArm.2)
  { st with kickTriggerSamples := kickArm.1, snareTriggerSamples := snareArm.1,
            hihatTriggerSamples := hihatArm, ghostTriggerSamples := ghostArm.1,
            rng := ghostArm.2 }

/-- The `pulseCount >= pulsesPerStep` body: advance `currentStep` modulo
the current pattern's step count, zero `pulseCount`, and apply a queued
pattern change when the advance lands on step 0. -/
def advanceStep (st : SeqState) : SeqState :=
  let st1 := { st with currentStep := (st.currentStep + 1) % st.currentPattern.steps,
                       pulseCount := 0 }
  if st1.currentStep == 0 && st1.patternChangeQueued then
    let p := generatePattern st1.queuedPatternId
    { st1 with basePattern := p, currentPattern := p,
               patternChangeQueued := false, queuedPatternId := -1 }
  else st1

/-- The clock branch of the per-sample loop: rising-edge detection on
the clock sample (updating the stored `clockHigh` level); on an edge,
count the sub-pulse, arm triggers on the first pulse of a step, and
advance after the sixth. -/
def applyClock (f : Nat → Nat × Nat) (gateLengthSamples : Nat) (cIn : ℚ)
    (st : SeqState) : SeqState :=
  let high := decide (1 < cIn)
  let rising := high && !st.clockHigh
  let st1 := { st with clockHigh := high }
  if rising then
    let st2 := { st1 with pulseCount := st1.pulseCount + 1 }
    let st3 := if st2.pulseCount == 1 then armTriggers f gateLengthSamples st2 else st2
    if st3.pulseCount ≥ st3.pulsesPerStep then advanceStep st3 else st3
  else st1

/-- The gate-output tail of the per-sample loop for one track: if its
countdown is positive, emit high and decrement; otherwise emit low. -/
def gateOutput (c : Nat) : Bool × Nat :=
  if 0 < c then (true, c - 1) else (false, 0)

/-- One iteration of the per-sample loop of `step()`: reset handling,
clock handling, then gate countdown and output for the four tracks.
Returns the new state and the (kick, snare, hihat, ghost) output levels
(true = 5 V, false = 0 V). -/
def processSample (f : Nat → Nat × Nat) (gateLengthSamples : Nat)
    (resetConnected : Bool) (rIn cIn : ℚ) (st : SeqState) :
    SeqState × (Bool × Bool × Bool × Bool) :=
  let st1 := applyReset resetConnected rIn st
  let st2 := applyClock f gateLengthSamples cIn st1
  let k := gateOutput st2.kickTriggerSamples
  let s := gateOutput st2.snareTriggerSamples
  let h := gateOutput st2.hihatTriggerSamples
  let g := gateOutput st2.ghostTriggerSamples
  ({ st2 with kickTriggerSamples := k.2, snareTriggerSamples := s.2,
              hihatTriggerSamples := h.2, ghostTriggerSamples := g.2 },
   (k.1, s.1, h.1, g.1))

/-- Run the per-sample loop over a list of (reset, clock) input sample
pairs. -/
def runSamples (f : Nat → Nat × Nat) (gateLengthSamples : Nat)
    (resetConnected : Bool) (inputs : List (ℚ × ℚ)) (st : SeqState) : SeqState :=
  inputs.foldl
    (fun s p => (processSample f gateLengthSamples resetConnected p.1 p.2 s).1) st

/-- An input segment carrying `n` clock rising edges and a silent reset
line: each edge is a 5 V clock sample followed by a 0 V one. -/
def clockEdges : Nat → List (ℚ × ℚ)
  | 0 => []
  | n + 1 => clockEdges n ++ [((0 : ℚ), (5 : ℚ)), ((0 : ℚ), (0 : ℚ))]

/-- `construct(...)`: the initial state.  The initial pattern id is
clamped to 0 when outside 0..9 before `generatePattern` runs; `g` is the
arbitrary generator state left by `srand(NT_getCpuCycleCount())`. -/
def initState (patternId : Int) (g : Nat) : SeqState :=
  let clamped := if patternId < 0 || patternId > 9 then 0 else patternId
  let p := generatePattern clamped
  { currentPattern := p, basePattern := p, currentStep := 0,
    pulsesPerStep := 6, pulseCount := 0, clockHigh := false, resetHigh := false,
    queuedPatternId := -1, patternChangeQueued := false,
    kickTriggerSamples := 0, snareTriggerSamples := 0,
    hihatTriggerSamples := 0, ghostTriggerSamples := 0,
    currentSeed := 0, bdProbability := 1, snareProbability := 1,
    ghostProbability := 1, rng := g }

/-- `parameterChanged` for `kParamPatternSelect`: queue the change
instead of applying it immediately. -/
def queuePatternChange (id : Int) (st : SeqState) : SeqState :=
  { st with queuedPatternId := id, patternChangeQueued := true }

/-- `resetToDefault()`: restore the current pattern from the base. -/
def resetToDefault (st : SeqState) : SeqState :=
  { st with currentPattern := st.basePattern }

/-- Control-path write of the three probability fields (pot moves). -/
def setProbabilities (bd sn gh : ℚ) (st : SeqState) : SeqState :=
  { st with bdProbability := bd, snareProbability := sn, ghostProbability := gh }

/-- Control-path invocation of `generateVariation` against the base
pattern; the global generator stream it consumed is abstracted as `r`
and the generator state it leaves behind as `g`. -/
def applyVariation (r : Nat → Nat) (g : Nat) (st : SeqState) : SeqState :=
  { st with currentPattern := generateVariation r st.basePattern, rng := g }

/-- Control-path invocation of `generateVariationWithSeed` (right
encoder turn accumulates into `currentSeed` and regenerates). -/
def applyVariationWithSeed (f : Nat → Nat × Nat) (sInit : Int → Nat) (delta : Int)
    (st : SeqState) : SeqState :=
  let seed := st.currentSeed + delta
  let out := generateVariationWithSeed f sInit seed st.basePattern
    st.bdProbability st.snareProbability st.ghostProbability st.rng
  { st with currentSeed := seed, currentPattern := out.1, rng := out.2 }

/-- The step-count-dependent part of `draw()`: the guard
`if (dtc->currentPattern.steps == 0) return true;` short-circuits the
layout, otherwise `stepWidth = gridWidth / steps` is computed with
`gridWidth = (256 - 2*6) - 35`. -/
def drawLayout (p : DrumPattern) : Option Nat :=
  if p.steps == 0 then none
  else some (((256 - 2 * 6) - 35) / p.steps)

/-- The states reachable from construction under the render path
(`processSample` with arbitrary inputs) and the control path
(pattern-select queueing, variation requests, reset-to-default,
probability writes).  The random draws consumed by control-path
variation calls are over-approximated by arbitrary streams and
resulting generator states. -/
inductive Reachable (f : Nat → Nat × Nat) : SeqState → Prop
  | init (patternId : Int) (g : Nat) : Reachable f (initState patternId g)
  | sample (gateLengthSamples : Nat) (resetConnected : Bool) (rIn cIn : ℚ)
      {st : SeqState} : Reachable f st →
      Reachable f (processSample f gateLengthSamples resetConnected rIn cIn st).1
  | select (id : Int) {st : SeqState} : Reachable f st →
      Reachable f (queuePatternChange id st)
  | vary (r : Nat → Nat) (g : Nat) {st : SeqState} : Reachable f st →
      Reachable f (applyVariation r g st)
  | varySeed (sInit : Int → Nat) (delta : Int) {st : SeqState} : Reachable f st →
      Reachable f (applyVariationWithSeed f sInit delta st)
  | restore {st : SeqState} : Reachable f st → Reachable f (resetToDefault st)
  | probs (bd sn gh : ℚ) {st : SeqState} : Reachable f st →
      Reachable f (setProbabilities bd sn gh st)

-- --- Helper lemmas: probability gate and variation engine ---

/-- A probability of exactly 0 never passes the gate: the draw quotient
is non-negative. -/
lemma gate_zero (rv : Nat) : gate rv 0 = false := by
  simp only [gate, decide_eq_false_iff_not, not_lt]
  positivity

lemma gateOutput_snd (c : Nat) : (gateOutput c).2 = c - 1 := by
  unfold gateOutput; split_ifs <;> omega

lemma gateOutput_fst (c : Nat) : (gateOutput c).1 = decide (0 < c) := by
  unfold gateOutput; split_ifs with h <;> simp [h]

/-- Every catalog entry (and the default branch) has a positive step
count. -/
lemma generatePattern_steps_pos (patternId : Int) :
    0 < (generatePattern patternId).steps := by
  unfold generatePattern
  split_ifs <;> decide

lemma setTrack_steps (v : DrumPattern) (t : Nat) (l : List Bool) :
    (setTrack v t l).steps = v.steps := by
  unfold setTrack; split_ifs <;> rfl

lemma copyStrategy_steps (base : DrumPattern) (t1 t2 : Nat) :
    (copyStrategy base t1 t2).steps = base.steps := by
  unfold copyStrategy; dsimp only; split_ifs <;> rfl

lemma slideStrategy_steps (base : DrumPattern) (t d : Nat) :
    (slideStrategy base t d).steps = base.steps := by
  unfold slideStrategy; dsimp only; split_ifs <;> rfl

lemma removeStrategy_steps (base : DrumPattern) (t : Nat) (r : Nat → Nat) :
    (removeStrategy base t r).steps = base.steps := by
  unfold removeStrategy
  dsimp only
  rcases h : removeLoop r base.steps (mapTrack t == 1)
      (trackList base (mapTrack t)) base.steps 0 with _ | p <;>
    simp [h, setTrack_steps]

lemma swapStrategy_steps (base : DrumPattern) (t1 t2 p : Nat) :
    (swapStrategy base t1 t2 p).steps = base.steps := by
  unfold swapStrategy; dsimp only; split_ifs <;> simp [setTrack_steps]

lemma generateVariation_steps (r : Nat → Nat) (base : DrumPattern) :
    (generateVariation r base).steps = base.steps := by
  unfold generateVariation
  split
  · exact copyStrategy_steps ..
  · exact slideStrategy_steps ..
  · exact removeStrategy_steps ..
  · exact swapStrategy_steps ..

lemma gvwsIter_hihat (f : Nat → Nat × Nat) (bd sn gh : ℚ) (vs : DrumPattern × Nat) :
    ((gvwsIter f bd sn gh vs).1).hihat = vs.1.hihat := by
  unfold gvwsIter; dsimp only; split_ifs <;> rfl

lemma gvwsIter_steps (f : Nat → Nat × Nat) (bd sn gh : ℚ) (vs : DrumPattern × Nat) :
    ((gvwsIter f bd sn gh vs).1).steps = vs.1.steps := by
  unfold gvwsIter; dsimp only; split_ifs <;> rfl

lemma generateVariationWithSeed_steps (f : Nat → Nat × Nat) (sInit : Int → Nat)
    (seed : Int) (base : DrumPattern) (bd sn gh : ℚ) (gIn : Nat) :
    ((generateVariationWithSeed f sInit seed base bd sn gh gIn).1).steps = base.steps := by
  unfold generateVariationWithSeed
  rw [gvwsIter_steps, gvwsIter_steps]

-- --- Helper lemmas: per-sample state machine phases ---

lemma applyReset_noedge_eq (rc : Bool) (rIn : ℚ) (st : SeqState) (h : ¬ 1 < rIn) :
    applyReset rc rIn st = { st with resetHigh := if rc then false else st.resetHigh } := by
  unfold applyReset
  cases rc <;> simp [h]

lemma applyReset_edge_eq (rIn : ℚ) (st : SeqState) (h : 1 < rIn)
    (hrh : st.resetHigh = false) :
    applyReset true rIn st =
      { st with resetHigh := true, currentStep := 0, pulseCount := 0 } := by
  unfold applyReset
  simp [h, hrh]

/-- `applyReset` only ever touches `resetHigh`, `currentStep` and
`pulseCount`. -/
lemma applyReset_shape (rc : Bool) (rIn : ℚ) (st : SeqState) :
    ∃ b c q, applyReset rc rIn st =
      { st with resetHigh := b, currentStep := c, pulseCount := q } := by
  unfold applyReset
  dsimp only
  split_ifs <;> exact ⟨_, _, _, rfl⟩

/-- `armTriggers` only ever touches the four trigger counters and the
generator state. -/
lemma armTriggers_shape (f : Nat → Nat × Nat) (glen : Nat) (st : SeqState) :
    ∃ k s h g r, armTriggers f glen st =
      { st with kickTriggerSamples := k, snareTriggerSamples := s,
                hihatTriggerSamples := h, ghostTriggerSamples := g, rng := r } := by
  unfold armTriggers
  exact ⟨_, _, _, _, _, rfl⟩

lemma advanceStep_base (st : SeqState) :
    (advanceStep st).currentStep = (st.currentStep + 1) % st.currentPattern.steps
    ∧ (advanceStep st).pulseCount = 0
    ∧ (advanceStep st).clockHigh = st.clockHigh
    ∧ (advanceStep st).pulsesPerStep = st.pulsesPerStep := by
  unfold advanceStep
  dsimp only
  split_ifs <;> exact ⟨rfl, rfl, rfl, rfl⟩

lemma advanceStep_queue_hit (st : SeqState) (hq : st.patternChangeQueued = true)
    (h0 : (st.currentStep + 1) % st.currentPattern.steps = 0) :
    (advanceStep st).currentPattern = generatePattern st.queuedPatternId
    ∧ (advanceStep st).basePattern = generatePattern st.queuedPatternId
    ∧ (advanceStep st).patternChangeQueued = false
    ∧ (advanceStep st).currentStep = 0 := by
  unfold advanceStep
  dsimp only
  simp [h0, hq]

lemma advanceStep_miss (st : SeqState)
    (h0 : (st.currentStep + 1) % st.currentPattern.steps ≠ 0) :
    (advanceStep st).currentPattern = st.currentPattern
    ∧ (advanceStep st).basePattern = st.basePattern
    ∧ (advanceStep st).patternChangeQueued = st.patternChangeQueued
    ∧ (advanceStep st).queuedPatternId = st.queuedPatternId := by
  unfold advanceStep
  dsimp only
  rw [if_neg (by simp [h0])]
  exact ⟨rfl, rfl, rfl, rfl⟩

lemma advanceStep_noqueue (st : SeqState) (hq : st.patternChangeQueued = false) :
    (advanceStep st).currentPattern = st.currentPattern
    ∧ (advanceStep st).basePattern = st.basePattern
    ∧ (advanceStep st).patternChangeQueued = st.patternChangeQueued
    ∧ (advanceStep st).queuedPatternId = st.queuedPatternId := by
  unfold advanceStep
  dsimp only
  rw [if_neg (by simp [hq])]
  exact ⟨rfl, rfl, rfl, rfl⟩

lemma advanceStep_patterns (st : SeqState) :
    ((advanceStep st).currentPattern = st.currentPattern
      ∧ (advanceStep st).basePattern = st.basePattern)
    ∨ (∃ id, (advanceStep st).currentPattern = generatePattern id
      ∧ (advanceStep st).basePattern = generatePattern id) := by
  unfold advanceStep
  dsimp only
  split_ifs
  · exact Or.inr ⟨_, rfl, rfl⟩
  · exact Or.inl ⟨rfl, rfl⟩

lemma applyClock_noedge (f : Nat → Nat × Nat) (glen : Nat) (cIn : ℚ) (st : SeqState)
    (h : ¬ 1 < cIn) :
    applyClock f glen cIn st = { st with clockHigh := false } := by
  unfold applyClock
  simp [h]

lemma applyClock_alreadyHigh (f : Nat → Nat × Nat) (glen : Nat) (cIn : ℚ)
    (st : SeqState) (hch : st.clockHigh = true) :
    applyClock f glen cIn st = { st with clockHigh := decide (1 < cIn) } := by
  unfold applyClock
  simp [hch]

lemma applyClock_edge (f : Nat → Nat × Nat) (glen : Nat) (cIn : ℚ) (st : SeqState)
    (h : 1 < cIn) (hch : st.clockHigh = false) :
    applyClock f glen cIn st =
      (let st3 := if st.pulseCount + 1 == 1 then
          armTriggers f glen { st with clockHigh := true, pulseCount := st.pulseCount + 1 }
        else { st with clockHigh := true, pulseCount := st.pulseCount + 1 }
       if st.pulseCount + 1 ≥ st.pulsesPerStep then advanceStep st3 else st3) := by
  unfold applyClock
  dsimp only
  simp only [h, hch, decide_true_eq_true, decide_True, Bool.not_false, Bool.and_self,
    if_true]
  by_cases hb : st.pulseCount + 1 == 1
  · obtain ⟨k, s, hh, g, r, hA⟩ := armTriggers_shape f glen
      { st with clockHigh := true, pulseCount := st.pulseCount + 1 }
    simp only [hb, if_true, hA]
  · simp [hb]

lemma applyClock_rise (f : Nat → Nat × Nat) (glen : Nat) (cIn : ℚ) (st : SeqState)
    (h : (decide (1 < cIn) && !st.clockHigh) = true) :
    applyClock f glen cIn st =
      (let st3 := if st.pulseCount + 1 == 1 then
          armTriggers f glen { st with clockHigh := true, pulseCount := st.pulseCount + 1 }
        else { st with clockHigh := true, pulseCount := st.pulseCount + 1 }
       if st.pulseCount + 1 ≥ st.pulsesPerStep then advanceStep st3 else st3) := by
  rw [Bool.and_eq_true] at h
  exact applyClock_edge f glen cIn st (of_decide_eq_true h.1)
    (Bool.not_eq_true' .. |>.mp h.2)

lemma applyClock_norise (f : Nat → Nat × Nat) (glen : Nat) (cIn : ℚ) (st : SeqState)
    (h : (decide (1 < cIn) && !st.clockHigh) = false) :
    applyClock f glen cIn st = { st with clockHigh := decide (1 < cIn) } := by
  unfold applyClock
  dsimp only
  rw [if_neg]
  simp [h]

/-- Unfolding equation for the first component of `processSample`: the
reset and clock phases followed by the four gate countdowns. -/
lemma processSample_fst (f : Nat → Nat × Nat) (glen : Nat) (rc : Bool) (rIn cIn : ℚ)
    (st : SeqState) :
    (processSample f glen rc rIn cIn st).1 =
      (let st2 := applyClock f glen cIn (applyReset rc rIn st)
       { st2 with kickTriggerSamples := (gateOutput st2.kickTriggerSamples).2,
                  snareTriggerSamples := (gateOutput st2.snareTriggerSamples).2,
                  hihatTriggerSamples := (gateOutput st2.hihatTriggerSamples).2,
                  ghostTriggerSamples := (gateOutput st2.ghostTriggerSamples).2 }) := rfl

/-- Unfolding equation for the outputs of `processSample`. -/
lemma processSample_snd (f : Nat → Nat × Nat) (glen : Nat) (rc : Bool) (rIn cIn : ℚ)
    (st : SeqState) :
    (processSample f glen rc rIn cIn st).2 =
      (let st2 := applyClock f glen cIn (applyReset rc rIn st)
       ((gateOutput st2.kickTriggerSamples).1, (gateOutput st2.snareTriggerSamples).1,
        (gateOutput st2.hihatTriggerSamples).1,
        (gateOutput st2.ghostTriggerSamples).1)) := rfl

lemma runSamples_nil (f : Nat → Nat × Nat) (glen : Nat) (rc : Bool) (st : SeqState) :
    runSamples f glen rc [] st = st := rfl

lemma runSamples_cons (f : Nat → Nat × Nat) (glen : Nat) (rc : Bool) (p : ℚ × ℚ)
    (inputs : List (ℚ × ℚ)) (st : SeqState) :
    runSamples f glen rc (p :: inputs) st =
      runSamples f glen rc inputs (processSample f glen rc p.1 p.2 st).1 := rfl

lemma runSamples_append (f : Nat → Nat × Nat) (glen : Nat) (rc : Bool)
    (a b : List (ℚ × ℚ)) (st : SeqState) :
    runSamples f glen rc (a ++ b) st = runSamples f glen rc b (runSamples f glen rc a st) := by
  unfold runSamples
  exact List.foldl_append ..

/-- A sample with both inputs at 0 V produces no edges: only the stored
clock level (and the gate countdowns) change. -/
lemma sample_low (f : Nat → Nat × Nat) (glen : Nat) (rc : Bool) (st : SeqState) :
    (processSample f glen rc 0 0 st).1.currentStep = st.currentStep
    ∧ (processSample f glen rc 0 0 st).1.pulseCount = st.pulseCount
    ∧ (processSample f glen rc 0 0 st).1.clockHigh = false
    ∧ (processSample f glen rc 0 0 st).1.pulsesPerStep = st.pulsesPerStep
    ∧ (processSample f glen rc 0 0 st).1.currentPattern = st.currentPattern
    ∧ (processSample f glen rc 0 0 st).1.basePattern = st.basePattern
    ∧ (processSample f glen rc 0 0 st).1.patternChangeQueued = st.patternChangeQueued
    ∧ (processSample f glen rc 0 0 st).1.queuedPatternId = st.queuedPatternId := by
  simp only [processSample_fst]
  rw [applyReset_noedge_eq rc 0 st (by norm_num),
    applyClock_noedge f glen 0 _ (by norm_num)]
  simp

/-- A clock rising edge that does not complete a step: the sub-pulse
count increments and nothing else in the sequencing state changes. -/
lemma sample_noadv (f : Nat → Nat × Nat) (glen : Nat) (rc : Bool) (rIn cIn : ℚ)
    (st : SeqState) (hrIn : ¬ 1 < rIn) (hcIn : 1 < cIn) (hch : st.clockHigh = false)
    (hlt : st.pulseCount + 1 < st.pulsesPerStep) :
    (processSample f glen rc rIn cIn st).1.currentStep = st.currentStep
    ∧ (processSample f glen rc rIn cIn st).1.pulseCount = st.pulseCount + 1
    ∧ (processSample f glen rc rIn cIn st).1.clockHigh = true
    ∧ (processSample f glen rc rIn cIn st).1.pulsesPerStep = st.pulsesPerStep
    ∧ (processSample f glen rc rIn cIn st).1.currentPattern = st.currentPattern
    ∧ (processSample f glen rc rIn cIn st).1.basePattern = st.basePattern
    ∧ (processSample f glen rc rIn cIn st).1.patternChangeQueued = st.patternChangeQueued
    ∧ (processSample f glen rc rIn cIn st).1.queuedPatternId = st.queuedPatternId := by
  simp only [processSample_fst]
  rw [applyReset_noedge_eq rc rIn st hrIn]
  rw [applyClock_edge f glen cIn _ hcIn (by simp [hch])]
  dsimp only
  rw [if_neg (by simp; omega)]
  by_cases hb : st.pulseCount + 1 = 1
  · obtain ⟨k, s, hh, g, r, hA⟩ := armTriggers_shape f glen
      { st with resetHigh := if rc then false else st.resetHigh,
                clockHigh := true, pulseCount := st.pulseCount + 1 }
    rw [if_pos (by simp [hb])]
    rw [hA]
    simp
  · rw [if_neg (by simp; omega)]
    simp

/-- A clock rising edge that completes a step: `currentStep` advances by
1 modulo the current pattern's step count and the sub-pulse count
returns to 0. -/
lemma sample_adv (f : Nat → Nat × Nat) (glen : Nat) (rc : Bool) (rIn cIn : ℚ)
    (st : SeqState) (hrIn : ¬ 1 < rIn) (hcIn : 1 < cIn) (hch : st.clockHigh = false)
    (hge : st.pulseCount + 1 ≥ st.pulsesPerStep) :
    (processSample f glen rc rIn cIn st).1.currentStep
        = (st.currentStep + 1) % st.currentPattern.steps
    ∧ (processSample f glen rc rIn cIn st).1.pulseCount = 0
    ∧ (processSample f glen rc rIn cIn st).1.clockHigh = true
    ∧ (processSample f glen rc rIn cIn st).1.pulsesPerStep = st.pulsesPerStep := by
  simp only [processSample_fst]
  rw [applyReset_noedge_eq rc rIn st hrIn]
  rw [applyClock_edge f glen cIn _ hcIn (by simp [hch])]
  dsimp only
  rw [if_pos (by simp; omega)]
  by_cases hb : st.pulseCount + 1 = 1
  · obtain ⟨k, s, hh, g, r, hA⟩ := armTriggers_shape f glen
      { st with resetHigh := if rc then false else st.resetHigh,
                clockHigh := true, pulseCount := st.pulseCount + 1 }
    rw [if_pos (by simp [hb]), hA]
    obtain ⟨h1, h2, h3, h4⟩ := advanceStep_base
      { st with resetHigh := if rc then false else st.resetHigh,
                clockHigh := true, pulseCount := st.pulseCount + 1,
                kickTriggerSamples := k, snareTriggerSamples := s,
                hihatTriggerSamples := hh, ghostTriggerSamples := g, rng := r }
    simp only [h1, h2, h3, h4]
    simp
  · rw [if_neg (by simp; omega)]
    obtain ⟨h1, h2, h3, h4⟩ := advanceStep_base
      { st with resetHigh := if rc then false else st.resetHigh,
                clockHigh := true, pulseCount := st.pulseCount + 1 }
    simp only [h1, h2, h3, h4]
    simp

/-- A step-completing clock edge that lands on step 0 applies the queued
pattern change: both patterns are replaced by the looked-up template and
the pending marker is cleared. -/
lemma sample_adv_queue_hit (f : Nat → Nat × Nat) (glen : Nat) (rc : Bool)
    (rIn cIn : ℚ) (st : SeqState) (hrIn : ¬ 1 < rIn) (hcIn : 1 < cIn)
    (hch : st.clockHigh = false) (hge : st.pulseCount + 1 ≥ st.pulsesPerStep)
    (hq : st.patternChangeQueued = true)
    (h0 : (st.currentStep + 1) % st.currentPattern.steps = 0) :
    (processSample f glen rc rIn cIn st).1.currentPattern
        = generatePattern st.queuedPatternId
    ∧ (processSample f glen rc rIn cIn st).1.basePattern
        = generatePattern st.queuedPatternId
    ∧ (processSample f glen rc rIn cIn st).1.patternChangeQueued = false := by
  simp only [processSample_fst]
  rw [applyReset_noedge_eq rc rIn st hrIn]
  rw [applyClock_edge f glen cIn _ hcIn (by simp [hch])]
  dsimp only
  rw [if_pos (by simp; omega)]
  by_cases hb : st.pulseCount + 1 = 1
  · obtain ⟨k, s, hh, g, r, hA⟩ := armTriggers_shape f glen
      { st with resetHigh := if rc then false else st.resetHigh,
                clockHigh := true, pulseCount := st.pulseCount + 1 }
    rw [if_pos (by simp [hb]), hA]
    obtain ⟨h1, h2, h3, _⟩ := advanceStep_queue_hit
      { st with resetHigh := if rc then false else st.resetHigh,
                clockHigh := true, pulseCount := st.pulseCount + 1,
                kickTriggerSamples := k, snareTriggerSamples := s,
                hihatTriggerSamples := hh, ghostTriggerSamples := g, rng := r }
      (by simpa using hq) (by simpa using h0)
    simp only [h1, h2, h3]
    simp
  · rw [if_neg (by simp; omega)]
    obtain ⟨h1, h2, h3, _⟩ := advanceStep_queue_hit
      { st with resetHigh := if rc then false else st.resetHigh,
                clockHigh := true, pulseCount := st.pulseCount + 1 }
      (by simpa using hq) (by simpa using h0)
    simp only [h1, h2, h3]
    simp

/-- A step-completing clock edge that does not land on step 0 leaves
both patterns and the pending marker untouched. -/
lemma sample_adv_nohit (f : Nat → Nat × Nat) (glen : Nat) (rc : Bool)
    (rIn cIn : ℚ) (st : SeqState) (hrIn : ¬ 1 < rIn) (hcIn : 1 < cIn)
    (hch : st.clockHigh = false) (hge : st.pulseCount + 1 ≥ st.pulsesPerStep)
    (h0 : (st.currentStep + 1) % st.currentPattern.steps ≠ 0) :
    (processSample f glen rc rIn cIn st).1.currentPattern = st.currentPattern
    ∧ (processSample f glen rc rIn cIn st).1.basePattern = st.basePattern
    ∧ (processSample f glen rc rIn cIn st).1.patternChangeQueued
        = st.patternChangeQueued
    ∧ (processSample f glen rc rIn cIn st).1.queuedPatternId = st.queuedPatternId := by
  simp only [processSample_fst]
  rw [applyReset_noedge_eq rc rIn st hrIn]
  rw [applyClock_edge f glen cIn _ hcIn (by simp [hch])]
  dsimp only
  rw [if_pos (by simp; omega)]
  by_cases hb : st.pulseCount + 1 = 1
  · obtain ⟨k, s, hh, g, r, hA⟩ := armTriggers_shape f glen
      { st with resetHigh := if rc then false else st.resetHigh,
                clockHigh := true, pulseCount := st.pulseCount + 1 }
    rw [if_pos (by simp [hb]), hA]
    obtain ⟨h1, h2, h3, h4⟩ := advanceStep_miss
      { st with resetHigh := if rc then false else st.resetHigh,
                clockHigh := true, pulseCount := st.pulseCount + 1,
                kickTriggerSamples := k, snareTriggerSamples := s,
                hihatTriggerSamples := hh, ghostTriggerSamples := g, rng := r }
      (by simpa using h0)
    simp only [h1, h2, h3, h4]
    simp
  · rw [if_neg (by simp; omega)]
    obtain ⟨h1, h2, h3, h4⟩ := advanceStep_miss
      { st with resetHigh := if rc then false else st.resetHigh,
                clockHigh := true, pulseCount := st.pulseCount + 1 }
      (by simpa using h0)
    simp only [h1, h2, h3, h4]
    simp

/-- `advanceStep` either leaves patterns and queue state untouched, or —
exactly when a change was pending and the advance landed on step 0 —
replaces both patterns by the queued template and clears the marker. -/
lemma advanceStep_outcome (st : SeqState) :
    ((advanceStep st).currentPattern = st.currentPattern
      ∧ (advanceStep st).basePattern = st.basePattern
      ∧ (advanceStep st).patternChangeQueued = st.patternChangeQueued
      ∧ (advanceStep st).queuedPatternId = st.queuedPatternId)
    ∨ (st.patternChangeQueued = true ∧ (advanceStep st).currentStep = 0
      ∧ (advanceStep st).currentPattern = generatePattern st.queuedPatternId
      ∧ (advanceStep st).basePattern = generatePattern st.queuedPatternId
      ∧ (advanceStep st).patternChangeQueued = false) := by
  unfold advanceStep
  dsimp only
  split_ifs with hc
  · rw [Bool.and_eq_true] at hc
    exact Or.inr ⟨hc.2, by simpa using hc.1, rfl, rfl, rfl⟩
  · exact Or.inl ⟨rfl, rfl, rfl, rfl⟩

/-- `applyClock` either leaves patterns and queue state untouched, or
applies the pending change and lands on step 0. -/
lemma applyClock_outcome (f : Nat → Nat × Nat) (glen : Nat) (cIn : ℚ)
    (st : SeqState) :
    ((applyClock f glen cIn st).currentPattern = st.currentPattern
      ∧ (applyClock f glen cIn st).basePattern = st.basePattern
      ∧ (applyClock f glen cIn st).patternChangeQueued = st.patternChangeQueued
      ∧ (applyClock f glen cIn st).queuedPatternId = st.queuedPatternId)
    ∨ (st.patternChangeQueued = true ∧ (applyClock f glen cIn st).currentStep = 0
      ∧ (applyClock f glen cIn st).currentPattern = generatePattern st.queuedPatternId
      ∧ (applyClock f glen cIn st).basePattern = generatePattern st.queuedPatternId
      ∧ (applyClock f glen cIn st).patternChangeQueued = false) := by
  by_cases hrise : (decide (1 < cIn) && !st.clockHigh) = true
  · rw [applyClock_rise f glen cIn st hrise]
    dsimp only
    by_cases hadv : st.pulseCount + 1 ≥ st.pulsesPerStep
    · rw [if_pos hadv]
      by_cases hb : st.pulseCount + 1 = 1
      · obtain ⟨k, s, hh, g, r, hA⟩ := armTriggers_shape f glen
          { st with clockHigh := true, pulseCount := st.pulseCount + 1 }
        rw [if_pos (by simp [hb]), hA]
        rcases advanceStep_outcome
          { st with clockHigh := true, pulseCount := st.pulseCount + 1,
                    kickTriggerSamples := k, snareTriggerSamples := s,
                    hihatTriggerSamples := hh, ghostTriggerSamples := g, rng := r }
          with h | h
        · exact Or.inl (by simpa using h)
        · exact Or.inr (by simpa using h)
      · rw [if_neg (by simp; omega)]
        rcases advanceStep_outcome
          { st with clockHigh := true, pulseCount := st.pulseCount + 1 }
          with h | h
        · exact Or.inl (by simpa using h)
        · exact Or.inr (by simpa using h)
    · rw [if_neg hadv]
      by_cases hb : st.pulseCount + 1 = 1
      · obtain ⟨k, s, hh, g, r, hA⟩ := armTriggers_shape f glen
          { st with clockHigh := true, pulseCount := st.pulseCount + 1 }
        rw [if_pos (by simp [hb]), hA]
        exact Or.inl ⟨rfl, rfl, rfl, rfl⟩
      · rw [if_neg (by simp; omega)]
        exact Or.inl ⟨rfl, rfl, rfl, rfl⟩
  · rw [applyClock_norise f glen cIn st (by simpa using hrise)]
    exact Or.inl ⟨rfl, rfl, rfl, rfl⟩

/-- One sample can change the patterns or clear the pending marker only
by landing on step 0; with a change pending and a non-zero resulting
step, everything queued-related is preserved. -/
lemma sample_queued_preserved (f : Nat → Nat × Nat) (glen : Nat) (rc : Bool)
    (rIn cIn : ℚ) (st : SeqState) (hq : st.patternChangeQueued = true)
    (hne : (processSample f glen rc rIn cIn st).1.currentStep ≠ 0) :
    (processSample f glen rc rIn cIn st).1.currentPattern = st.currentPattern
    ∧ (processSample f glen rc rIn cIn st).1.basePattern = st.basePattern
    ∧ (processSample f glen rc rIn cIn st).1.patternChangeQueued = true
    ∧ (processSample f glen rc rIn cIn st).1.queuedPatternId = st.queuedPatternId := by
  simp only [processSample_fst] at hne ⊢
  obtain ⟨b, c, q, hR⟩ := applyReset_shape rc rIn st
  rw [hR] at hne ⊢
  rcases applyClock_outcome f glen cIn
      { st with resetHigh := b, currentStep := c, pulseCount := q } with h | h
  · obtain ⟨h1, h2, h3, h4⟩ := h
    simp only [h1, h2, h3, h4]
    simp [hq]
  · exact absurd (by simpa using h.2.1) hne

/-- Both stored patterns have a positive step count. -/
def StepsPos (st : SeqState) : Prop :=
  0 < st.currentPattern.steps ∧ 0 < st.basePattern.steps

lemma processSample_stepsPos (f : Nat → Nat × Nat) (glen : Nat) (rc : Bool)
    (rIn cIn : ℚ) (st : SeqState) (h : StepsPos st) :
    StepsPos (processSample f glen rc rIn cIn st).1 := by
  obtain ⟨b, c, q, hR⟩ := applyReset_shape rc rIn st
  unfold StepsPos
  simp only [processSample_fst]
  rw [hR]
  rcases applyClock_outcome f glen cIn
      { st with resetHigh := b, currentStep := c, pulseCount := q } with h1 | h1
  · obtain ⟨h1c, h1b, _, _⟩ := h1
    constructor
    · simpa [h1c] using h.1
    · simpa [h1b] using h.2
  · obtain ⟨_, _, h1c, h1b, _⟩ := h1
    constructor
    · simpa [h1c] using generatePattern_steps_pos _
    · simpa [h1b] using generatePattern_steps_pos _

lemma initState_stepsPos (patternId : Int) (g : Nat) :
    StepsPos (initState patternId g) := by
  unfold StepsPos initState
  dsimp only
  exact ⟨generatePattern_steps_pos _, generatePattern_steps_pos _⟩

/-- Steps-positivity is an invariant of every reachable state. -/
lemma reachable_stepsPos (f : Nat → Nat × Nat) (st : SeqState)
    (h : Reachable f st) : StepsPos st := by
  induction h with
  | init patternId g => exact initState_stepsPos patternId g
  | sample glen rc rIn cIn _ ih => exact processSample_stepsPos _ _ _ _ _ _ ih
  | select id _ ih => exact ⟨ih.1, ih.2⟩
  | vary r g _ ih =>
      refine ⟨?_, ih.2⟩
      show 0 < (generateVariation r _).steps
      rw [generateVariation_steps]
      exact ih.2
  | varySeed sInit delta _ ih =>
      refine ⟨?_, ih.2⟩
      show 0 < (generateVariationWithSeed _ _ _ _ _ _ _ _).1.steps
      rw [generateVariationWithSeed_steps]
      exact ih.2
  | restore _ ih => exact ⟨ih.2, ih.2⟩
  | probs bd sn gh _ ih => exact ⟨ih.1, ih.2⟩

/-- Under all-zero probabilities the probability-gated tracks are never
armed; the hi-hat arms exactly when its slot is active. -/
lemma armTriggers_zero_probs (f : Nat → Nat × Nat) (glen : Nat) (st : SeqState)
    (hbd : st.bdProbability = 0) (hsn : st.snareProbability = 0)
    (hgh : st.ghostProbability = 0) :
    (armTriggers f glen st).kickTriggerSamples = 0
    ∧ (armTriggers f glen st).snareTriggerSamples = 0
    ∧ (armTriggers f glen st).ghostTriggerSamples = 0
    ∧ (armTriggers f glen st).hihatTriggerSamples
        = (if st.currentPattern.hihat.getD st.currentStep false then glen else 0) := by
  unfold armTriggers
  dsimp only
  rw [hbd, hsn, hgh]
  simp only [gate_zero, if_false, Bool.false_eq_true]
  refine ⟨?_, ?_, ?_, ?_⟩ <;> first
    | trivial
    | (split_ifs <;> rfl)

-- --- Claim theorems ---

/-- A fixed generator step used to instantiate witnesses: every draw is
0 and the hidden state is left unchanged. -/
def constRand : Nat → Nat × Nat := fun s => (0, s)

/-- C1 (code bug): the backbeat invariant is violated by the slide
strategy.  With the random stream constantly 1, `generateVariation`
selects the slide strategy (type 1) on the snare track with direction
+1; on the Two-Step base pattern it clears the whole snare track and
re-places each hit one step forward — the protected check only refuses
to slide a hit onto a backbeat slot, not off of one — so the base's
backbeat snare hits at positions 4 and 12 end up at 5 and 13 and the
snare booleans at 4 and 12 flip from true to false, contradicting the
spec's unconditional backbeat invariant and the README's "all
variations maintain the essential snare hits on beats 2 and 4". -/
theorem C1_slide_destroys_backbeat :
    (generateVariation (fun _ => 1) (generatePattern 0)).snare.getD 4 false = false
    ∧ (generatePattern 0).snare.getD 4 false = true
    ∧ (generateVariation (fun _ => 1) (generatePattern 0)).snare.getD 12 false = false
    ∧ (generatePattern 0).snare.getD 12 false = true
    ∧ (generateVariation (fun _ => 1) (generatePattern 0)).snare.getD 5 false = true := by
  decide

/-- C2: whenever the cross-pattern track copy draws a source pattern
whose step count (as reported by `getTrackFromPattern`) differs from the
base pattern's step count, the strategy is a complete no-op. -/
theorem C2_copy_length_mismatch_noop (base : DrumPattern) (t1Draw t2Draw : Nat)
    (h : (getTrackFromPattern (t2Draw % 10) (mapTrack t1Draw)).2 ≠ base.steps) :
    copyStrategy base t1Draw t2Draw = base := by
  unfold copyStrategy
  dsimp only
  rw [if_neg h]

/-- Witness for C2: copying into the 32-step Dimension UK pattern always
mismatches (the helper reports 16 steps for every source), so the copy
leaves the base untouched. -/
theorem C2_copy_length_mismatch_noop_witness :
    copyStrategy (generatePattern 5) 0 0 = generatePattern 5 :=
  C2_copy_length_mismatch_noop (generatePattern 5) 0 0 (by decide)

/-- C3 (counterexample): an out-of-range id does not produce the id-0
(Two-Step) template — `generatePattern`'s `default` branch leaves the
cleared, all-false 16-step pattern instead of clamping to id 0. -/
theorem C3_out_of_range_not_two_step : generatePattern 10 ≠ generatePattern 0 := by
  decide

/-- C3 (amended): for every id outside 0..9, `generatePattern` yields
the empty default pattern (the catalog switch is never indexed out of
bounds), and only construction clamps an invalid initial id to 0, so
the constructed base and current patterns equal the id-0 template. -/
theorem C3_invalid_id_handling (patternId : Int) (g : Nat)
    (h : patternId < 0 ∨ 9 < patternId) :
    generatePattern patternId = emptyPattern
    ∧ (initState patternId g).basePattern = generatePattern 0
    ∧ (initState patternId g).currentPattern = generatePattern 0 := by
  have hcond : (decide (patternId < 0) || decide (patternId > 9)) = true := by
    rcases h with h | h <;> simp [h]
  have hne : ∀ k : Int, 0 ≤ k → k ≤ 9 → patternId ≠ k := by
    intro k h1 h2
    rcases h with h | h <;> omega
  refine ⟨?_, ?_, ?_⟩
  · unfold generatePattern
    rw [if_neg (hne 0 (by norm_num) (by norm_num)),
        if_neg (hne 1 (by norm_num) (by norm_num)),
        if_neg (hne 2 (by norm_num) (by norm_num)),
        if_neg (hne 3 (by norm_num) (by norm_num)),
        if_neg (hne 4 (by norm_num) (by norm_num)),
        if_neg (hne 5 (by norm_num) (by norm_num)),
        if_neg (hne 6 (by norm_num) (by norm_num)),
        if_neg (hne 7 (by norm_num) (by norm_num)),
        if_neg (hne 8 (by norm_num) (by norm_num)),
        if_neg (hne 9 (by norm_num) (by norm_num))]
  · unfold initState
    dsimp only
    rw [if_pos hcond]
  · unfold initState
    dsimp only
    rw [if_pos hcond]

/-- Witness for C3's amended statement at id 10. -/
theorem C3_invalid_id_handling_witness :
    generatePattern 10 = emptyPattern
    ∧ (initState 10 0).basePattern = generatePattern 0
    ∧ (initState 10 0).currentPattern = generatePattern 0 :=
  C3_invalid_id_handling 10 0 (by decide)

/-- C4: the seeded probability-gated multi-mutation draws its tracks
from {kick, snare, ghost} only (`rand() % 3` remapped to indices 0, 1,
3) and therefore never alters the hi-hat: for every generator, seed,
base pattern and probability setting, the resulting pattern's hi-hat
sequence equals the base's bit for bit. -/
theorem C4_seeded_variation_preserves_hihat (f : Nat → Nat × Nat) (sInit : Int → Nat)
    (seed : Int) (base : DrumPattern) (bd sn gh : ℚ) (gIn : Nat) :
    ((generateVariationWithSeed f sInit seed base bd sn gh gIn).1).hihat
      = base.hihat := by
  unfold generateVariationWithSeed
  dsimp only
  rw [gvwsIter_hihat, gvwsIter_hihat]

/-- As long as every sample of a run ends with `currentStep ≠ 0`, a
pending pattern change stays pending and both patterns stay untouched. -/
lemma runSamples_queued_preserved (f : Nat → Nat × Nat) (glen : Nat) (rc : Bool) :
    ∀ (inputs : List (ℚ × ℚ)) (st : SeqState), st.patternChangeQueued = true →
    (∀ n, n ≤ inputs.length →
      (runSamples f glen rc (List.take n inputs) st).currentStep ≠ 0) →
    (runSamples f glen rc inputs st).currentPattern = st.currentPattern
    ∧ (runSamples f glen rc inputs st).basePattern = st.basePattern
    ∧ (runSamples f glen rc inputs st).patternChangeQueued = true := by
  intro inputs
  induction inputs with
  | nil =>
      intro st hq _
      exact ⟨rfl, rfl, hq⟩
  | cons p rest ih =>
      intro st hq hns
      have h1 : (processSample f glen rc p.1 p.2 st).1.currentStep ≠ 0 := by
        have := hns 1 (by simp)
        simpa [runSamples_cons, runSamples_nil] using this
      obtain ⟨hc, hb, hqq, _⟩ := sample_queued_preserved f glen rc p.1 p.2 st hq h1
      have hns2 : ∀ n, n ≤ rest.length →
          (runSamples f glen rc (List.take n rest)
            (processSample f glen rc p.1 p.2 st).1).currentStep ≠ 0 := by
        intro n hn
        have := hns (n + 1) (by simpa using Nat.succ_le_succ hn)
        simpa [List.take_succ_cons, runSamples_cons] using this
      obtain ⟨r1, r2, r3⟩ := ih (processSample f glen rc p.1 p.2 st).1 hqq hns2
      rw [runSamples_cons]
      exact ⟨r1.trans hc, r2.trans hb, r3⟩

/-- C5: a pattern-select request only records the queued id and the
pending marker; on every subsequent sample whose resulting step is not
0 both patterns are unchanged and the request stays pending (clause for
a single sample and for an arbitrary run), and on the clock edge whose
advance lands on step 0 the queued template is looked up and installed
as both base and current pattern, clearing the marker. -/
theorem C5_pattern_select_deferred (f : Nat → Nat × Nat) (glen : Nat) (rc : Bool)
    (id : Int) (st : SeqState) :
    ((queuePatternChange id st).currentPattern = st.currentPattern
      ∧ (queuePatternChange id st).basePattern = st.basePattern
      ∧ (queuePatternChange id st).currentStep = st.currentStep)
    ∧ (∀ rIn cIn : ℚ, st.patternChangeQueued = true →
        ((processSample f glen rc rIn cIn st).1.currentStep ≠ 0 →
          (processSample f glen rc rIn cIn st).1.currentPattern = st.currentPattern
          ∧ (processSample f glen rc rIn cIn st).1.basePattern = st.basePattern
          ∧ (processSample f glen rc rIn cIn st).1.patternChangeQueued = true)
        ∧ (¬ 1 < rIn → 1 < cIn → st.clockHigh = false →
            st.pulseCount + 1 ≥ st.pulsesPerStep →
            (st.currentStep + 1) % st.currentPattern.steps = 0 →
            (processSample f glen rc rIn cIn st).1.currentPattern
              = generatePattern st.queuedPatternId
            ∧ (processSample f glen rc rIn cIn st).1.basePattern
              = generatePattern st.queuedPatternId
            ∧ (processSample f glen rc rIn cIn st).1.patternChangeQueued = false))
    ∧ (∀ inputs : List (ℚ × ℚ), st.patternChangeQueued = true →
        (∀ n, n ≤ inputs.length →
          (runSamples f glen rc (List.take n inputs) st).currentStep ≠ 0) →
        (runSamples f glen rc inputs st).currentPattern = st.currentPattern
        ∧ (runSamples f glen rc inputs st).basePattern = st.basePattern
        ∧ (runSamples f glen rc inputs st).patternChangeQueued = true) := by
  refine ⟨⟨rfl, rfl, rfl⟩, ?_, ?_⟩
  · intro rIn cIn hq
    constructor
    · intro hne
      obtain ⟨a, b, c, _⟩ := sample_queued_preserved f glen rc rIn cIn st hq hne
      exact ⟨a, b, c⟩
    · intro hr hc hch hge h0
      exact sample_adv_queue_hit f glen rc rIn cIn st hr hc hch hge hq h0
  · intro inputs hq hns
    exact runSamples_queued_preserved f glen rc inputs st hq hns

/-- A state with a pending pattern change about to complete a loop, used
to witness C5. -/
def queuedBoundaryState : SeqState :=
  { (initState 0 0) with
      currentStep := 15, pulseCount := 5,
      patternChangeQueued := true, queuedPatternId := 3 }

/-- Witness for C5: in `queuedBoundaryState` the next clock edge lands
on step 0 and installs pattern 3 (Stompa). -/
theorem C5_pattern_select_deferred_witness :
    (processSample constRand 480 false 0 5 queuedBoundaryState).1.currentPattern
      = generatePattern 3
    ∧ (processSample constRand 480 false 0 5 queuedBoundaryState).1.basePattern
      = generatePattern 3
    ∧ (processSample constRand 480 false 0 5
        queuedBoundaryState).1.patternChangeQueued = false := by
  have h := ((C5_pattern_select_deferred constRand 480 false 3
    queuedBoundaryState).2.1 0 5 rfl).2
    (by norm_num) (by norm_num) rfl (by decide) (by decide)
  exact h

/-- Running `n ≤ 5` clock edges from sub-pulse 0 accumulates the
sub-pulse count without advancing the step or touching the patterns. -/
lemma runSamples_edges_le (f : Nat → Nat × Nat) (glen : Nat) (rc : Bool) :
    ∀ (n : Nat) (st : SeqState), st.pulseCount = 0 → st.clockHigh = false →
    st.pulsesPerStep = 6 → n ≤ 5 →
    (runSamples f glen rc (clockEdges n) st).currentStep = st.currentStep
    ∧ (runSamples f glen rc (clockEdges n) st).pulseCount = n
    ∧ (runSamples f glen rc (clockEdges n) st).clockHigh = false
    ∧ (runSamples f glen rc (clockEdges n) st).pulsesPerStep = 6
    ∧ (runSamples f glen rc (clockEdges n) st).currentPattern = st.currentPattern
    ∧ (runSamples f glen rc (clockEdges n) st).basePattern = st.basePattern := by
  intro n
  induction n with
  | zero =>
      intro st h1 h2 h3 _
      exact ⟨rfl, h1, h2, h3, rfl, rfl⟩
  | succ n ih =>
      intro st h1 h2 h3 hn
      rw [show clockEdges (n + 1) = clockEdges n ++ [((0 : ℚ), (5 : ℚ)), ((0 : ℚ), (0 : ℚ))]
        from rfl]
      rw [runSamples_append]
      obtain ⟨e1, e2, e3, e4, e5, e6⟩ := ih st h1 h2 h3 (by omega)
      obtain ⟨a1, a2, a3, a4, a5, a6, a7, a8⟩ := sample_noadv f glen rc 0 5
        (runSamples f glen rc (clockEdges n) st) (by norm_num) (by norm_num) e3
        (by rw [e2, e4]; omega)
      obtain ⟨b1, b2, b3, b4, b5, b6, b7, b8⟩ := sample_low f glen rc
        (processSample f glen rc 0 5 (runSamples f glen rc (clockEdges n) st)).1
      rw [runSamples_cons, runSamples_cons, runSamples_nil]
      refine ⟨?_, ?_, b3, ?_, ?_, ?_⟩
      · exact b1.trans (a1.trans e1)
      · rw [b2, a2, e2]
      · rw [b4, a4, e4]
      · exact b5.trans (a5.trans e5)
      · exact b6.trans (a6.trans e6)

/-- C6: from a sub-pulse count of 0, six clock rising edges (with the
reset line silent) advance `currentStep` by exactly one modulo the
current pattern's step count and return the sub-pulse count to 0, while
five such edges leave `currentStep` unchanged (the sub-pulse count
stands at 5). -/
theorem C6_six_edges_one_step (f : Nat → Nat × Nat) (glen : Nat) (rc : Bool)
    (st : SeqState) (hp : st.pulseCount = 0) (hch : st.clockHigh = false)
    (hpp : st.pulsesPerStep = 6) :
    (runSamples f glen rc (clockEdges 6) st).currentStep
        = (st.currentStep + 1) % st.currentPattern.steps
    ∧ (runSamples f glen rc (clockEdges 6) st).pulseCount = 0
    ∧ (runSamples f glen rc (clockEdges 5) st).currentStep = st.currentStep
    ∧ (runSamples f glen rc (clockEdges 5) st).pulseCount = 5 := by
  obtain ⟨e1, e2, e3, e4, e5, e6⟩ := runSamples_edges_le f glen rc 5 st hp hch hpp
    (le_refl 5)
  refine ⟨?_, ?_, e1, e2⟩ <;>
    rw [show clockEdges 6 = clockEdges 5 ++ [((0 : ℚ), (5 : ℚ)), ((0 : ℚ), (0 : ℚ))]
      from rfl, runSamples_append, runSamples_cons, runSamples_cons, runSamples_nil]
  · obtain ⟨a1, a2, a3, a4⟩ := sample_adv f glen rc 0 5
      (runSamples f glen rc (clockEdges 5) st) (by norm_num) (by norm_num) e3
      (by rw [e2, e4])
    obtain ⟨b1, b2, _, _, _, _, _, _⟩ := sample_low f glen rc
      (processSample f glen rc 0 5 (runSamples f glen rc (clockEdges 5) st)).1
    rw [b1, a1, e1, e5]
  · obtain ⟨a1, a2, a3, a4⟩ := sample_adv f glen rc 0 5
      (runSamples f glen rc (clockEdges 5) st) (by norm_num) (by norm_num) e3
      (by rw [e2, e4])
    obtain ⟨b1, b2, _, _, _, _, _, _⟩ := sample_low f glen rc
      (processSample f glen rc 0 5 (runSamples f glen rc (clockEdges 5) st)).1
    rw [b2, a2]

/-- Witness for C6 on the freshly constructed state (Two-Step, 16
steps): six edges take step 0 to step 1, five leave it at 0. -/
theorem C6_six_edges_one_step_witness :
    (runSamples constRand 480 false (clockEdges 6) (initState 0 0)).currentStep = 1
    ∧ (runSamples constRand 480 false (clockEdges 6) (initState 0 0)).pulseCount = 0
    ∧ (runSamples constRand 480 false (clockEdges 5) (initState 0 0)).currentStep = 0 := by
  obtain ⟨h1, h2, h3, _⟩ := C6_six_edges_one_step constRand 480 false (initState 0 0)
    rfl rfl rfl
  refine ⟨?_, h2, ?_⟩
  · rw [h1]; decide
  · rw [h3]; decide

/-- C7: on the first sub-pulse of a step, a track whose probability is
fixed at 0.0 never arms its gate even when the pattern has an active
hit (the uniform draw divided by RAND_MAX is never below 0), and its
output stays low for that sample; the hi-hat is exempt from the gating
and arms (and fires) whenever its slot at the current step is active. -/
theorem C7_zero_probability_never_arms (f : Nat → Nat × Nat) (glen : Nat) (cIn : ℚ)
    (st : SeqState) (hbd : st.bdProbability = 0) (hsn : st.snareProbability = 0)
    (hgh : st.ghostProbability = 0) (hp : st.pulseCount = 0)
    (hch : st.clockHigh = false) (hpp : st.pulsesPerStep = 6) (hcIn : 1 < cIn)
    (hglen : 0 < glen)
    (hhit : st.currentPattern.hihat.getD st.currentStep false = true) :
    (processSample f glen false 0 cIn st).1.kickTriggerSamples = 0
    ∧ (processSample f glen false 0 cIn st).1.snareTriggerSamples = 0
    ∧ (processSample f glen false 0 cIn st).1.ghostTriggerSamples = 0
    ∧ (processSample f glen false 0 cIn st).1.hihatTriggerSamples = glen - 1
    ∧ (processSample f glen false 0 cIn st).2.1 = false
    ∧ (processSample f glen false 0 cIn st).2.2.1 = false
    ∧ (processSample f glen false 0 cIn st).2.2.2.2 = false
    ∧ (processSample f glen false 0 cIn st).2.2.2.1 = true := by
  have hR : applyReset false 0 st = st := rfl
  have hC := applyClock_edge f glen cIn st hcIn hch
  rw [if_neg (by rw [hp, hpp]; norm_num), if_pos (by rw [hp]; rfl)] at hC
  obtain ⟨z1, z2, z3, z4⟩ := armTriggers_zero_probs f glen
    { st with clockHigh := true, pulseCount := st.pulseCount + 1 }
    (by simpa using hbd) (by simpa using hsn) (by simpa using hgh)
  rw [if_pos (by simpa using hhit)] at z4
  simp only [processSample_fst, processSample_snd, hR, hC]
  refine ⟨?_, ?_, ?_, ?_, ?_, ?_, ?_, ?_⟩
  · show (gateOutput _).2 = 0
    rw [z1]; rfl
  · show (gateOutput _).2 = 0
    rw [z2]; rfl
  · show (gateOutput _).2 = 0
    rw [z3]; rfl
  · show (gateOutput _).2 = glen - 1
    rw [z4, gateOutput_snd]
  · show (gateOutput _).1 = false
    rw [z1]; rfl
  · show (gateOutput _).1 = false
    rw [z2]; rfl
  · show (gateOutput _).1 = false
    rw [z3]; rfl
  · show (gateOutput _).1 = true
    rw [z4, gateOutput_fst]
    simpa using hglen

/-- The constructed state with all three gated probabilities at 0, used
to witness C7 (pattern 0 has an active hi-hat hit at step 0). -/
def zeroProbState : SeqState :=
  { (initState 0 0) with
      bdProbability := 0, snareProbability := 0, ghostProbability := 0 }

/-- Witness for C7: with a 480-sample gate length, the first clock pulse
in `zeroProbState` leaves kick, snare and ghost unarmed and silent while
the hi-hat fires with 479 samples remaining. -/
theorem C7_zero_probability_never_arms_witness :
    (processSample constRand 480 false 0 5 zeroProbState).1.kickTriggerSamples = 0
    ∧ (processSample constRand 480 false 0 5 zeroProbState).1.snareTriggerSamples = 0
    ∧ (processSample constRand 480 false 0 5 zeroProbState).1.ghostTriggerSamples = 0
    ∧ (processSample constRand 480 false 0 5 zeroProbState).1.hihatTriggerSamples = 479
    ∧ (processSample constRand 480 false 0 5 zeroProbState).2.1 = false
    ∧ (processSample constRand 480 false 0 5 zeroProbState).2.2.1 = false
    ∧ (processSample constRand 480 false 0 5 zeroProbState).2.2.2.2 = false
    ∧ (processSample constRand 480 false 0 5 zeroProbState).2.2.2.1 = true :=
  C7_zero_probability_never_arms constRand 480 5 zeroProbState rfl rfl rfl rfl rfl rfl
    (by norm_num) (by norm_num) (by decide)

/-- C8: a reset rising edge (with the clock line silent) immediately
zeroes `currentStep` and the sub-pulse counter and records the high
reset level, and changes nothing else: in particular the four per-track
gate countdowns are not cleared — they keep counting down by exactly
the one output sample processed, as on every other sample. -/
theorem C8_reset_only_resets_position (f : Nat → Nat × Nat) (glen : Nat) (rIn : ℚ)
    (st : SeqState) (hrh : st.resetHigh = false) (hch : st.clockHigh = false)
    (h : 1 < rIn) :
    (processSample f glen true rIn 0 st).1 =
      { st with currentStep := 0, pulseCount := 0, resetHigh := true,
                kickTriggerSamples := st.kickTriggerSamples - 1,
                snareTriggerSamples := st.snareTriggerSamples - 1,
                hihatTriggerSamples := st.hihatTriggerSamples - 1,
                ghostTriggerSamples := st.ghostTriggerSamples - 1 } := by
  simp only [processSample_fst]
  rw [applyReset_edge_eq rIn st h hrh, applyClock_noedge f glen 0 _ (by norm_num)]
  cases st
  subst hch
  simp [gateOutput_snd]

/-- A mid-pattern state with an armed kick gate, used to witness C8. -/
def armedMidPatternState : SeqState :=
  { (initState 0 0) with
      currentStep := 7, pulseCount := 3, kickTriggerSamples := 100 }

/-- Witness for C8: the reset edge zeroes the position and the kick
countdown merely decrements from 100 to 99. -/
theorem C8_reset_only_resets_position_witness :
    (processSample constRand 480 true 5 0 armedMidPatternState).1 =
      { armedMidPatternState with
          currentStep := 0, pulseCount := 0, resetHigh := true,
          kickTriggerSamples := 99, snareTriggerSamples := 0,
          hihatTriggerSamples := 0, ghostTriggerSamples := 0 } := by
  rw [C8_reset_only_resets_position constRand 480 5 armedMidPatternState rfl rfl
    (by norm_num)]
  rfl

/-- C9: `generateVariationWithSeed` reseeds the generator before
drawing, so its result depends only on the seed, the base pattern and
the probability values — two invocations with the same seed, base and
probabilities produce bit-for-bit identical patterns no matter what
hidden generator state (`g1`, `g2`, e.g. the state the first invocation
left behind) each invocation starts from. -/
theorem C9_seeded_variation_deterministic (f : Nat → Nat × Nat) (sInit : Int → Nat)
    (seed : Int) (base : DrumPattern) (bd sn gh : ℚ) (g1 g2 : Nat) :
    (generateVariationWithSeed f sInit seed base bd sn gh g1).1
      = (generateVariationWithSeed f sInit seed base bd sn gh g2).1 := rfl

/-- A degenerate state whose current pattern claims 0 steps, used to
exhibit the unguarded step-advance modulo for C10. -/
def zeroStepsState : SeqState :=
  { (initState 0 0) with
      currentPattern := { (generatePattern 0) with steps := 0 },
      currentStep := 3, pulseCount := 5 }

/-- C10 (counterexample): the step-advance modulo is NOT guarded
against `steps == 0` — on a state with a 0-step current pattern the
sixth clock edge still executes the advance (the sub-pulse counter is
zeroed and `currentStep` is overwritten with the result of the modulo,
`(3 + 1) % 0`, which the embedding evaluates as 4) instead of
short-circuiting; in the C source this is a division by zero.  Only the
display path has the `steps == 0` early return. -/
theorem C10_advance_modulo_unguarded :
    (processSample constRand 480 false 0 5 zeroStepsState).1.pulseCount = 0
    ∧ (processSample constRand 480 false 0 5 zeroStepsState).1.currentStep = 4 := by
  decide

/-- C10 (amended): the display layout division is guarded — `drawLayout`
short-circuits to `none` whenever `steps = 0` — and, although the
step-advance modulo itself has no guard, it can never divide by zero in
operation: every reachable state (from construction, under arbitrary
render-path samples and control-path requests) has positive step counts
in both the current and the base pattern. -/
theorem C10_division_guards :
    (∀ p : DrumPattern, p.steps = 0 → drawLayout p = none)
    ∧ (∀ (f : Nat → Nat × Nat) (st : SeqState), Reachable f st →
        0 < st.currentPattern.steps ∧ 0 < st.basePattern.steps) := by
  constructor
  · intro p hp
    unfold drawLayout
    rw [if_pos (by simp [hp])]
  · intro f st h
    exact reachable_stepsPos f st h

/-- Witness for C10's amended statement: the display layout
short-circuits on a 0-step pattern, and the constructed initial state
has a positive step count. -/
theorem C10_division_guards_witness :
    drawLayout { (generatePattern 0) with steps := 0 } = none
    ∧ 0 < (initState 0 0).currentPattern.steps :=
  ⟨C10_division_guards.1 { (generatePattern 0) with steps := 0 } rfl,
   (C10_division_guards.2 constRand (initState 0 0) (Reachable.init 0 0)).1⟩
